import Mathlib

/-!
Shallow embedding of the masking engine of `earthpy/mask.py`
(`_create_mask`, `_apply_mask`, `mask_pixels`).

Arrays are modelled row-major: an n-dimensional numpy array is a shape
(list of dimension sizes) together with a flat list of elements; numeric
elements are `Int`.  Python objects that may reach the functions but are
not numpy arrays (plain Python lists) are a separate constructor, so that
the source's duck-typing failures (`AttributeError` on `.shape` / `.ndim`)
and numpy's scalar-comparison quirks (`list == 1` is plain `False`) can be
reproduced.  The in-place mutations performed by `_create_mask`
(`vals.sort()` and overwriting the QA buffer) are modelled by returning
the final states of both arguments alongside the returned value.
-/

/-- Errors raised by the masking engine.  `invalidInput` stands for the
`AttributeError`s complaining that an argument is not a numpy array or a
list; `invalidMask` for `ValueError "Mask requires values of 1 (True) to be
applied."`; `valueNotFound` for `ValueError "Values to mask are not in
provided mask layer."`; `notABinaryMask` for the `AttributeError "Please
provide either a masked array or a Pixel QA layer with values to mask."`;
`broadcastError` for the `ValueError` numpy itself raises from a
shape-incompatible elementwise operation or `np.broadcast_to`. -/
inductive Err where
  | invalidInput
  | invalidMask
  | valueNotFound
  | notABinaryMask
  | broadcastError
  deriving DecidableEq

/-- A plain numpy `ndarray` of integers: a shape and the row-major flat
buffer.  Well-formedness (`data.length = shape.prod`) is stated as a
hypothesis where a theorem needs it. -/
structure NDArray where
  shape : List Nat
  data : List Int
  deriving DecidableEq

/-- A numpy boolean array (the result of `arr == 1` or `np.broadcast_to`
of such a comparison). -/
structure BoolArr where
  shape : List Nat
  data : List Bool
  deriving DecidableEq

/-- A `numpy.ma.MaskedArray`: values plus per-element exclusion flags
(`true` = excluded).  The `nomask` case is represented by passing a plain
`NDArray` instead. -/
structure MaskedArray where
  shape : List Nat
  data : List Int
  mask : List Bool
  deriving DecidableEq

/-- Well-formedness of a plain array: the buffer fills the shape. -/
def NDArray.wf (a : NDArray) : Prop := a.data.length = a.shape.prod

/-- What Python may pass as the data array `arr`: a plain ndarray, an
`np.ma.MaskedArray`, or a plain Python list (which has no `.shape`). -/
inductive DataInput where
  | plain : NDArray → DataInput
  | masked : MaskedArray → DataInput
  | pylist : List Int → DataInput
  deriving DecidableEq

/-- What Python may pass as the mask argument: an ndarray or a plain
Python list. -/
inductive MaskInput where
  | arr : NDArray → MaskInput
  | pylist : List Int → MaskInput
  deriving DecidableEq

/-- The numeric buffer of a data argument (for stating that values are
preserved). -/
def DataInput.values : DataInput → List Int
  | .plain d => d.data
  | .masked m => m.data
  | .pylist l => l

/-- `arr.shape` as duck typing sees it: a Python list has none
(`AttributeError`). -/
def DataInput.shapeAttr : DataInput → Option (List Nat)
  | .plain d => some d.shape
  | .masked m => some m.shape
  | .pylist _ => none

/-- Python `list.sort()` on a list of numbers: ascending order. -/
def pySort (l : List Int) : List Int := List.insertionSort (· ≤ ·) l

/-- Row-major multi-index of flat position `k` in `shape`. -/
def multiIndex : List Nat → Nat → List Nat
  | [], _ => []
  | _ :: rest, k => (k / rest.prod) :: multiIndex rest (k % rest.prod)

/-- Row-major flat position of multi-index `idx` in `shape`. -/
def flatIndex : List Nat → List Nat → Nat
  | _ :: rest, i :: is => i * rest.prod + flatIndex rest is
  | _, _ => 0

/-- Numpy broadcast compatibility of a source shape against a target
shape, both reversed (trailing dimensions first): every source dimension
must equal the target dimension or be 1, and the source may not have more
dimensions than the target. -/
def bcCompatRev : List Nat → List Nat → Bool
  | [], _ => true
  | _ :: _, [] => false
  | a :: as, b :: bs => (a == b || a == 1) && bcCompatRev as bs

/-- Map a (reversed) target multi-index back into the (reversed) source
index space: broadcast dimensions of size 1 always read position 0. -/
def srcIdxRev : List Nat → List Nat → List Nat
  | [], _ => []
  | _ :: _, [] => []
  | a :: as, i :: is => (if a == 1 then 0 else i) :: srcIdxRev as is

/-- `np.broadcast_to(b, tgt)`: `none` models the `ValueError` numpy raises
on incompatible shapes. -/
def broadcastTo (b : BoolArr) (tgt : List Nat) : Option BoolArr :=
  if bcCompatRev b.shape.reverse tgt.reverse then
    some ⟨tgt, (List.range tgt.prod).map fun k =>
      b.data.getD
        (flatIndex b.shape ((srcIdxRev b.shape.reverse (multiIndex tgt k).reverse).reverse))
        false⟩
  else none

/-- `arr == 1` elementwise on an ndarray. -/
def eqOne (a : NDArray) : BoolArr := ⟨a.shape, a.data.map fun e => e == 1⟩

/-- `np.unique` (on the flat buffer): the sorted distinct values. -/
def npUnique (l : List Int) : List Int := List.insertionSort (· ≤ ·) l.dedup

/-- `arr.astype(bool)` read back through numpy's numeric comparison:
`False` compares as 0 and `True` as 1. -/
def astypeBool (a : NDArray) : NDArray :=
  ⟨a.shape, a.data.map fun e => if e == 0 then 0 else 1⟩

/-- `np.array_equal`: same shape and same elements. -/
def npArrayEqual (a b : NDArray) : Bool := a.shape == b.shape && a.data == b.data

/-- Python `vals in mask_vals` where `mask_vals` is a 1-D numpy array and
`vals` a list: numpy evaluates `(mask_vals == vals).any()` under
broadcasting.  Equal lengths compare POSITION BY POSITION; a length-1
operand is broadcast against the other; any other length combination is a
numpy `ValueError`. -/
def npContains1D (a : List Int) (item : List Int) : Except Err Bool :=
  if a.length = item.length then
    .ok ((a.zip item).any fun p => p.1 == p.2)
  else if item.length = 1 then
    .ok (a.any fun x => x == item.headD 0)
  else if a.length = 1 then
    .ok (item.any fun x => x == a.headD 0)
  else
    .error .broadcastError

/-- Result of `_create_mask`, with the final states of the two mutable
arguments: `valsFinal` is the caller's `vals` list after the call
(`vals.sort()` mutates it in place) and `maskArrFinal` the caller's
`mask_arr` buffer after the call (the source writes `1`/`0` into it). -/
structure CreateMaskResult where
  valsFinal : List Int
  maskArrFinal : MaskInput
  ret : Except Err NDArray

/-- `_create_mask(mask_arr, vals)` from `earthpy/mask.py`: sort `vals` in
place; `temp_mask = np.isin(mask_arr, vals)`; write 1 where `temp_mask`
and 0 elsewhere into `mask_arr`'s own buffer; return `mask_arr`.  A
non-array `mask_arr` fails the `.ndim` probe (`AttributeError`), after
the sort has already happened.  (`vals` is modelled as always being a
list, so the source's first `try`, which guards `vals.sort()`, always
succeeds.) -/
def createMask (mask_arr : MaskInput) (vals : List Int) : CreateMaskResult :=
  let vs := pySort vals
  match mask_arr with
  | .pylist l => ⟨vs, .pylist l, .error .invalidInput⟩
  | .arr a =>
      let newArr : NDArray :=
        ⟨a.shape, a.data.map fun e => if vs.contains e then 1 else 0⟩
      ⟨vs, .arr newArr, .ok newArr⟩

/-- `ma.masked_array(arr, mask=m)` with the default `keep_mask=True`: if
`arr` is already masked its mask is ORed into the given one. -/
def maMaskedArray (a : DataInput) (m : List Bool) : MaskedArray :=
  match a with
  | .plain d => ⟨d.shape, d.data, m⟩
  | .masked p => ⟨p.shape, p.data, List.zipWith (· || ·) p.mask m⟩
  | .pylist l => ⟨[l.length], l, m⟩

/-- `_apply_mask(arr, input_mask)` from `earthpy/mask.py`.  Step 1:
`if not np.any(input_mask == 1)` raise `invalidMask` — for a Python-list
mask, `input_mask == 1` is the plain `False`, so this check fails first.
Step 2: `np.broadcast_to(input_mask == 1, arr.shape)` inside a
`try/except AttributeError`: the attribute access that can raise is
`arr.shape`, so a shapeless data array becomes `invalidInput`, while a
shape mismatch is numpy's own uncaught `ValueError` (`broadcastError`).
Step 3: if `arr` is a masked array, OR its mask into the broadcast cover
mask; finally build `ma.masked_array(arr, mask=cover_mask)`. -/
def applyMask (arr : DataInput) (input_mask : MaskInput) : Except Err MaskedArray :=
  match input_mask with
  | .pylist _ => .error .invalidMask
  | .arr m =>
      if m.data.any (fun e => e == 1) = true then
        match arr.shapeAttr with
        | none => .error .invalidInput
        | some shp =>
            match broadcastTo (eqOne m) shp with
            | none => .error .broadcastError
            | some cover =>
                let cover2 : List Bool :=
                  match arr with
                  | .masked p => List.zipWith (· || ·) p.mask cover.data
                  | _ => cover.data
                .ok (maMaskedArray arr cover2)
      else .error .invalidMask

/-- `mask_pixels(arr, mask_arr, vals)` from `earthpy/mask.py`.  `if vals:`
is Python truthiness (non-`None` and non-empty).  In the value-driven
branch the source runs `if vals not in np.unique(mask_arr)` — numpy list
containment, `npContains1D` — and otherwise builds the mask with
`_create_mask` and applies it.  In the prebuilt branch it raises
`notABinaryMask` when `np.array_equal(mask_arr, mask_arr.astype(bool))`
holds, else passes `mask_arr` through to `_apply_mask`. -/
def maskPixels (arr : DataInput) (mask_arr : NDArray)
    (vals : Option (List Int) := none) : Except Err MaskedArray :=
  match vals with
  | some (v :: vrest) =>
      let vlist := v :: vrest
      match npContains1D (npUnique mask_arr.data) vlist with
      | .error e => .error e
      | .ok contained =>
          if contained then
            match (createMask (.arr mask_arr) vlist).ret with
            | .ok cover => applyMask arr (.arr cover)
            | .error e => .error e
          else .error .valueNotFound
  | _ =>
      if npArrayEqual mask_arr (astypeBool mask_arr) then
        .error .notABinaryMask
      else
        applyMask arr (.arr mask_arr)

/-- `True` exactly on the error outcomes of a call. -/
def isFailure : Except Err MaskedArray → Bool
  | .error _ => true
  | .ok _ => false

/-! ### Helper lemmas -/

theorem zipOr_self (l : List Bool) : List.zipWith (· || ·) l l = l := by
  induction l with
  | nil => rfl
  | cons x xs ih => simp [List.zipWith, ih]

theorem zipOr_absorb (a b : List Bool) :
    List.zipWith (· || ·) a (List.zipWith (· || ·) a b) = List.zipWith (· || ·) a b := by
  induction a generalizing b with
  | nil => rfl
  | cons x xs ih =>
      cases b with
      | nil => rfl
      | cons y ys => simp [List.zipWith, Bool.or_assoc, ih]

theorem zipOr_assoc (a b c : List Bool) :
    List.zipWith (· || ·) (List.zipWith (· || ·) a b) c
      = List.zipWith (· || ·) a (List.zipWith (· || ·) b c) := by
  induction a generalizing b c with
  | nil => rfl
  | cons x xs ih =>
      cases b with
      | nil => rfl
      | cons y ys =>
          cases c with
          | nil => rfl
          | cons z zs => simp [List.zipWith, Bool.or_assoc, ih]

theorem pySort_contains (V : List Int) (e : Int) :
    (pySort V).contains e = V.contains e := by
  have hp : (pySort V).Perm V := List.perm_insertionSort _ V
  simp [pySort, List.contains, List.elem_eq_mem, hp.mem_iff]

theorem contains_ite_eq_mem_ite (V : List Int) (e : Int) :
    (if (pySort V).contains e then (1 : Int) else 0)
      = if e ∈ V then 1 else 0 := by
  rw [pySort_contains]
  simp [List.contains, List.elem_eq_mem]

/-- The returned mask of `_create_mask` on a genuine array, characterised
by plain membership in the original (unsorted) value list. -/
theorem createMask_ret_eq (a : NDArray) (V : List Int) :
    (createMask (.arr a) V).ret
      = .ok ⟨a.shape, a.data.map fun e => if e ∈ V then 1 else 0⟩ := by
  simp only [createMask]
  exact congrArg Except.ok (congrArg (NDArray.mk a.shape)
    (List.map_congr_left fun e _ => contains_ite_eq_mem_ite V e))

/-! ### Claim theorems -/

/-- Claim C2: for every numeric array Q and non-empty value list V,
`build_mask(Q, V)` (`_create_mask`) returns an array of Q's shape that is
1 exactly where Q's element is a member of V and 0 elsewhere, and the
result is invariant under permutations of V. -/
theorem createMask_membership (a : NDArray) (V Vp : List Int) (hV : V ≠ []) :
    (createMask (.arr a) V).ret
      = .ok ⟨a.shape, a.data.map fun e => if e ∈ V then 1 else 0⟩
    ∧ (V.Perm Vp →
        (createMask (.arr a) V).ret = (createMask (.arr a) Vp).ret) := by
  refine ⟨createMask_ret_eq a V, fun hp => ?_⟩
  rw [createMask_ret_eq, createMask_ret_eq]
  exact congrArg Except.ok (congrArg (NDArray.mk a.shape)
    (List.map_congr_left fun e _ => by
      by_cases h : e ∈ V
      · rw [if_pos h, if_pos (hp.mem_iff.mp h)]
      · rw [if_neg h, if_neg (fun hc => h (hp.mem_iff.mpr hc))]))

theorem createMask_membership_witness :
    ([4] : List Int) ≠ []
    ∧ ((createMask (.arr ⟨[3], [4, 7, 4]⟩) [4]).ret = .ok ⟨[3], [1, 0, 1]⟩
       ∧ (List.Perm ([4] : List Int) [4] →
          (createMask (.arr ⟨[3], [4, 7, 4]⟩) [4]).ret
            = (createMask (.arr ⟨[3], [4, 7, 4]⟩) [4]).ret)) :=
  ⟨by decide, createMask_membership ⟨[3], [4, 7, 4]⟩ [4] [4] (by decide)⟩

/-- Claim C9: `_create_mask` overwrites the caller's QA buffer in place
and returns that very buffer: after the call the caller's array is the
returned mask, every element of it is 0 or 1 (the original QA codes do
not survive), 1 exactly where the original value was in `vals`. -/
theorem createMask_mutates_qa_in_place (a : NDArray) (V : List Int) (r : NDArray)
    (hV : V ≠ []) (h : (createMask (.arr a) V).ret = .ok r) :
    (createMask (.arr a) V).maskArrFinal = .arr r
    ∧ (∀ e ∈ r.data, e = 0 ∨ e = 1)
    ∧ r.data = a.data.map fun e => if e ∈ V then 1 else 0 := by
  rw [createMask_ret_eq] at h
  have hr : r = ⟨a.shape, a.data.map fun e => if e ∈ V then 1 else 0⟩ :=
    (Except.ok.inj h).symm
  subst hr
  refine ⟨?_, ?_, rfl⟩
  · simp only [createMask]
    exact congrArg MaskInput.arr (congrArg (NDArray.mk a.shape)
      (List.map_congr_left fun e _ => contains_ite_eq_mem_ite V e))
  · intro e he
    rcases List.mem_map.mp he with ⟨x, _, hx⟩
    by_cases h : x ∈ V
    · rw [if_pos h] at hx
      exact Or.inr hx.symm
    · rw [if_neg h] at hx
      exact Or.inl hx.symm

theorem createMask_mutates_qa_in_place_witness :
    (([7] : List Int) ≠ []
     ∧ (createMask (.arr ⟨[2], [5, 7]⟩) [7]).ret = .ok ⟨[2], [0, 1]⟩)
    ∧ ((createMask (.arr ⟨[2], [5, 7]⟩) [7]).maskArrFinal = .arr ⟨[2], [0, 1]⟩
       ∧ (∀ e ∈ ([0, 1] : List Int), e = 0 ∨ e = 1)
       ∧ ([0, 1] : List Int) = [0, 1]) :=
  ⟨⟨by decide, rfl⟩, createMask_mutates_qa_in_place ⟨[2], [5, 7]⟩ [7] ⟨[2], [0, 1]⟩ (by decide) rfl⟩

/-- Claim C10: `_create_mask` sorts the caller's `vals` list in place
before any array work; after every call (also the one rejecting a
non-array QA argument, which fails only after the sort) the caller's
list is in ascending order, a permutation of what was passed in. -/
theorem createMask_sorts_vals_in_place (mi : MaskInput) (V : List Int) :
    List.Sorted (· ≤ ·) (createMask mi V).valsFinal
    ∧ ((createMask mi V).valsFinal).Perm V := by
  have hv : (createMask mi V).valsFinal = pySort V := by
    cases mi <;> rfl
  rw [hv]
  exact ⟨List.sorted_insertionSort _ V, List.perm_insertionSort _ V⟩

/-- Claim C3: with a mask containing at least one 1, the exclusion flags
of `_apply_mask(D, M)` are `M == 1` broadcast to D's shape when D carries
no prior mask, and the elementwise OR of D's prior flags with that
broadcast mask when D is already a masked array. -/
theorem applyMask_exclusion_union (M : NDArray) (sh : List Nat) (d : List Int)
    (pm : List Bool) (B : BoolArr)
    (h1 : (1 : Int) ∈ M.data) (hbc : broadcastTo (eqOne M) sh = some B) :
    applyMask (.plain ⟨sh, d⟩) (.arr M) = .ok ⟨sh, d, B.data⟩
    ∧ applyMask (.masked ⟨sh, d, pm⟩) (.arr M)
        = .ok ⟨sh, d, List.zipWith (· || ·) pm B.data⟩ := by
  have hany : M.data.any (fun e => e == 1) = true :=
    List.any_eq_true.mpr ⟨1, h1, by simp⟩
  constructor
  · simp [applyMask, hany, DataInput.shapeAttr, hbc, maMaskedArray]
  · simp [applyMask, hany, DataInput.shapeAttr, hbc, maMaskedArray, zipOr_absorb]

theorem applyMask_exclusion_union_witness :
    ((1 : Int) ∈ ([1, 0] : List Int)
     ∧ broadcastTo (eqOne ⟨[2], [1, 0]⟩) [2] = some ⟨[2], [true, false]⟩)
    ∧ (applyMask (.plain ⟨[2], [5, 6]⟩) (.arr ⟨[2], [1, 0]⟩)
        = .ok ⟨[2], [5, 6], [true, false]⟩
       ∧ applyMask (.masked ⟨[2], [5, 6], [false, true]⟩) (.arr ⟨[2], [1, 0]⟩)
        = .ok ⟨[2], [5, 6], [true, true]⟩) :=
  ⟨⟨by decide, rfl⟩,
   applyMask_exclusion_union ⟨[2], [1, 0]⟩ [2] [5, 6] [false, true]
     ⟨[2], [true, false]⟩ (by decide) rfl⟩

/-- Claim C5: a mask in which no element equals 1 makes `_apply_mask`
fail with `invalidMask`, and `mask_pixels` called without values on such
a mask never silently returns a result (it always fails with some
error). -/
theorem applyMask_no_ones (a : DataInput) (M : NDArray)
    (h : ∀ e ∈ M.data, e ≠ (1 : Int)) :
    applyMask a (.arr M) = .error .invalidMask
    ∧ isFailure (maskPixels a M none) = true := by
  have hany : M.data.any (fun e => e == 1) = false :=
    List.any_eq_false.mpr fun x hx hb => h x hx (by simpa using hb)
  refine ⟨by simp [applyMask, hany], ?_⟩
  by_cases hb : npArrayEqual M (astypeBool M) = true
  · simp [maskPixels, hb, isFailure]
  · simp [maskPixels, hb, applyMask, hany, isFailure]

theorem applyMask_no_ones_witness :
    (∀ e ∈ ([0, 0] : List Int), e ≠ (1 : Int))
    ∧ (applyMask (.plain ⟨[2], [1, 2]⟩) (.arr ⟨[2], [0, 0]⟩) = .error .invalidMask
       ∧ isFailure (maskPixels (.plain ⟨[2], [1, 2]⟩) ⟨[2], [0, 0]⟩ none) = true) :=
  ⟨by decide, applyMask_no_ones (.plain ⟨[2], [1, 2]⟩) ⟨[2], [0, 0]⟩ (by decide)⟩

/-- Claim C6 counterexample: a mask argument that is not an array (a
plain Python list, which has no shape) is rejected by `_apply_mask` with
`invalidMask`, NOT `invalidInput`: the list compares to 1 as a plain
`False`, so the mask-has-ones check fires before anything touches a
shape. -/
theorem applyMask_list_mask_counterexample :
    applyMask (.plain ⟨[2], [5, 6]⟩) (.pylist [1, 0]) = .error .invalidMask
    ∧ Err.invalidMask ≠ Err.invalidInput :=
  ⟨rfl, by decide⟩

/-- Claim C6 amended: the `invalidInput` branch of `_apply_mask` fires
when the DATA array lacks a shape (and the mask does contain a 1); a
non-array mask argument is instead rejected with `invalidMask`. -/
theorem applyMask_shapeless_inputs (l lm : List Int) (m : NDArray) (a : DataInput)
    (h1 : (1 : Int) ∈ m.data) :
    applyMask (.pylist l) (.arr m) = .error .invalidInput
    ∧ applyMask a (.pylist lm) = .error .invalidMask := by
  have hany : m.data.any (fun e => e == 1) = true :=
    List.any_eq_true.mpr ⟨1, h1, by simp⟩
  exact ⟨by simp [applyMask, hany, DataInput.shapeAttr], rfl⟩

theorem applyMask_shapeless_inputs_witness :
    (1 : Int) ∈ ([1, 0] : List Int)
    ∧ (applyMask (.pylist [5, 6]) (.arr ⟨[2], [1, 0]⟩) = .error .invalidInput
       ∧ applyMask (.plain ⟨[2], [5, 6]⟩) (.pylist [1, 0]) = .error .invalidMask) :=
  ⟨by decide, applyMask_shapeless_inputs [5, 6] [1, 0] ⟨[2], [1, 0]⟩
    (.plain ⟨[2], [5, 6]⟩) (by decide)⟩

/-- Claim C7: whenever `_apply_mask` succeeds, the numeric values of the
result equal the input data array's values element for element, and the
shape is the input's shape — only the exclusion flags are new. -/
theorem applyMask_preserves_values (a : DataInput) (mi : MaskInput) (r : MaskedArray)
    (h : applyMask a mi = .ok r) :
    r.data = a.values ∧ a.shapeAttr = some r.shape := by
  cases mi with
  | pylist lm => exact absurd h (by simp [applyMask])
  | arr m =>
      by_cases hany : m.data.any (fun e => e == 1) = true
      · cases a with
        | pylist l => simp [applyMask, hany, DataInput.shapeAttr] at h
        | plain dd =>
            rcases hb : broadcastTo (eqOne m) dd.shape with _ | cover
            · simp [applyMask, hany, DataInput.shapeAttr, hb] at h
            · simp only [applyMask, hany, if_true, DataInput.shapeAttr,
                hb, maMaskedArray] at h
              obtain rfl : (⟨dd.shape, dd.data, cover.data⟩ : MaskedArray) = r :=
                Except.ok.inj h
              exact ⟨rfl, rfl⟩
        | masked p =>
            rcases hb : broadcastTo (eqOne m) p.shape with _ | cover
            · simp [applyMask, hany, DataInput.shapeAttr, hb] at h
            · simp only [applyMask, hany, if_true, DataInput.shapeAttr,
                hb, maMaskedArray] at h
              obtain rfl :
                  (⟨p.shape, p.data,
                    List.zipWith (· || ·) p.mask
                      (List.zipWith (· || ·) p.mask cover.data)⟩ : MaskedArray) = r :=
                Except.ok.inj h
              exact ⟨rfl, rfl⟩
      · simp [applyMask, hany] at h

theorem applyMask_preserves_values_witness :
    applyMask (.plain ⟨[2], [7, 8]⟩) (.arr ⟨[2], [1, 0]⟩)
      = .ok ⟨[2], [7, 8], [true, false]⟩
    ∧ (([7, 8] : List Int) = [7, 8]
       ∧ (some [2] : Option (List Nat)) = some [2]) :=
  ⟨rfl, applyMask_preserves_values (.plain ⟨[2], [7, 8]⟩) (.arr ⟨[2], [1, 0]⟩)
    ⟨[2], [7, 8], [true, false]⟩ rfl⟩

/-- Claim C8: `_apply_mask` is idempotent in its exclusion effect:
reapplying the same mask to a successful result returns that result
unchanged (same values, same exclusion flags). -/
theorem applyMask_idempotent (a : DataInput) (M : NDArray) (R : MaskedArray)
    (h : applyMask a (.arr M) = .ok R) :
    applyMask (.masked R) (.arr M) = .ok R := by
  by_cases hany : M.data.any (fun e => e == 1) = true
  · cases a with
    | pylist l => simp [applyMask, hany, DataInput.shapeAttr] at h
    | plain dd =>
        rcases hb : broadcastTo (eqOne M) dd.shape with _ | cover
        · simp [applyMask, hany, DataInput.shapeAttr, hb] at h
        · simp only [applyMask, hany, if_true, DataInput.shapeAttr,
            hb, maMaskedArray] at h
          obtain rfl : (⟨dd.shape, dd.data, cover.data⟩ : MaskedArray) = R :=
            Except.ok.inj h
          simp [applyMask, hany, DataInput.shapeAttr, hb, maMaskedArray, zipOr_self]
    | masked p =>
        rcases hb : broadcastTo (eqOne M) p.shape with _ | cover
        · simp [applyMask, hany, DataInput.shapeAttr, hb] at h
        · simp only [applyMask, hany, if_true, DataInput.shapeAttr,
            hb, maMaskedArray] at h
          obtain rfl :
              (⟨p.shape, p.data,
                List.zipWith (· || ·) p.mask
                  (List.zipWith (· || ·) p.mask cover.data)⟩ : MaskedArray) = R :=
            Except.ok.inj h
          simp [applyMask, hany, DataInput.shapeAttr, hb, maMaskedArray,
            zipOr_absorb, zipOr_assoc, zipOr_self]
  · simp [applyMask, hany] at h

theorem applyMask_idempotent_witness :
    applyMask (.plain ⟨[2], [7, 8]⟩) (.arr ⟨[2], [1, 0]⟩)
      = .ok ⟨[2], [7, 8], [true, false]⟩
    ∧ applyMask (.masked ⟨[2], [7, 8], [true, false]⟩) (.arr ⟨[2], [1, 0]⟩)
      = .ok ⟨[2], [7, 8], [true, false]⟩ :=
  ⟨rfl, applyMask_idempotent (.plain ⟨[2], [7, 8]⟩) ⟨[2], [1, 0]⟩
    ⟨[2], [7, 8], [true, false]⟩ rfl⟩

/-- Claim C1 is refuted by the code: in pre-built-mask mode (no values)
`mask_pixels` raises `notABinaryMask` precisely on a STRICTLY
boolean-valued mask — here `[[1,0],[0,1]]`, a perfectly good binary mask
that `_apply_mask` itself accepts — while an array that is NOT
boolean-valued (`[[2,0],[0,2]]`) is passed through unchanged to
`_apply_mask`.  The guard's direction is inverted relative to the claim
and to the source's own comment. -/
theorem maskPixels_binary_check_inverted :
    maskPixels (.plain ⟨[2, 2], [0, 1, 2, 3]⟩) ⟨[2, 2], [1, 0, 0, 1]⟩ none
      = .error .notABinaryMask
    ∧ applyMask (.plain ⟨[2, 2], [0, 1, 2, 3]⟩) (.arr ⟨[2, 2], [1, 0, 0, 1]⟩)
      = .ok ⟨[2, 2], [0, 1, 2, 3], [true, false, false, true]⟩
    ∧ maskPixels (.plain ⟨[2, 2], [0, 1, 2, 3]⟩) ⟨[2, 2], [2, 0, 0, 2]⟩ none
      = applyMask (.plain ⟨[2, 2], [0, 1, 2, 3]⟩) (.arr ⟨[2, 2], [2, 0, 0, 2]⟩) :=
  ⟨rfl, rfl, rfl⟩

/-- Claim C4 is refuted by the code: the guard `vals not in
np.unique(mask_arr)` is numpy containment, which compares the value list
POSITION BY POSITION against the sorted unique QA values.  With QA values
`{10, 20}` and `values = [999, 20]` the call succeeds although 999 occurs
nowhere; with QA values `{1, 2, 3}` and `values = [2, 3, 1]` the call
raises the value-not-found error although every requested value occurs. -/
theorem maskPixels_value_check_positional :
    maskPixels (.plain ⟨[2], [0, 1]⟩) ⟨[2], [10, 20]⟩ (some [999, 20])
      = .ok ⟨[2], [0, 1], [false, true]⟩
    ∧ (999 : Int) ∉ ([10, 20] : List Int)
    ∧ maskPixels (.plain ⟨[4], [0, 1, 2, 3]⟩) ⟨[4], [1, 2, 3, 1]⟩ (some [2, 3, 1])
      = .error .valueNotFound
    ∧ (∀ v ∈ ([2, 3, 1] : List Int), v ∈ ([1, 2, 3, 1] : List Int)) :=
  ⟨rfl, by decide, rfl, by decide⟩
